import Mathlib

/-!
Shallow embedding of the bdk-ffi wallet layer (src/bdk-ffi/src/wallet.rs).

Pure value types (TxBuilder, BumpFeeTxBuilder, Balance, OutPoint, ...) are
translated directly from the Rust source.  Behaviour that wallet.rs only
delegates to the underlying bdk_wallet library (balance computation, fee
calculation, coin selection, fee bumping, persistence) is absent from src/
and is modelled from the specification; each such definition carries a doc
comment starting with "Modelled from the spec:".

Machine integers (u64 satoshi amounts, u32 sequence numbers) are modelled as
Nat: none of the verified claims involves overflow behaviour.
-/

namespace BdkFfi

/-- Satoshi amount (u64 in the source, modelled as Nat). -/
abbrev Amount := Nat

/-- Fee rate in satoshis per weight unit (bdk FeeRate, modelled as Nat). -/
abbrev FeeRate := Nat

/-- An output script (ScriptBuf in the source); the byte content is opaque
to the wallet layer, modelled as a list of bytes. -/
structure Script where
  bytes : List Nat
deriving DecidableEq

/-- A (transaction id, output index) pair identifying an output
(bdk OutPoint).  The txid component is kept in its hexadecimal string form,
which is how wallet.rs exchanges transaction ids. -/
structure OutPoint where
  txid : String
  vout : Nat
deriving DecidableEq

/-- Keychain tag: external (receiving) or internal (change) branch. -/
inductive KeychainKind where
  | external
  | internal
deriving DecidableEq

/-- Change-spend policy of bdk_wallet's tx_builder. -/
inductive ChangeSpendPolicy where
  | changeAllowed
  | onlyChange
  | changeForbidden
deriving DecidableEq

/-- RBF value from wallet.rs: either the library default replaceable
sequence or an explicit u32 sequence number. -/
inductive RbfValue where
  | Default
  | Value (v : Nat)
deriving DecidableEq

/-- A (script, amount) recipient pair (ScriptAmount in the source types). -/
structure ScriptAmount where
  script : Script
  amount : Amount
deriving DecidableEq

/-- A transaction output: value in satoshis plus the locking script. -/
structure TxOut where
  value : Amount
  script_pubkey : Script
deriving DecidableEq

/-- A transaction input; only the previous output reference matters to the
wallet layer claims (script_sig / witness / sequence are opaque here). -/
structure TxIn where
  previous_output : OutPoint
deriving DecidableEq

/-- A transaction as seen by the fee queries.  Weight is serialization
derived in the real system (an external concern per the spec) and is
modelled as a field. -/
structure Transaction where
  inputs : List TxIn
  outputs : List TxOut
  weight : Nat
deriving DecidableEq

/-- Modelled from the spec: the confirmation/trust classification that
bdk_wallet assigns to an output when computing balances (absent from src/).
Each unspent output falls in exactly one of the four buckets. -/
inductive ChainStatus where
  | confirmed
  | trustedPending
  | untrustedPending
  | immature
deriving DecidableEq

/-- A wallet-known output (LocalOutput in the source types): outpoint,
txout, owning keychain, spent flag, and its balance classification. -/
structure LocalOutput where
  outpoint : OutPoint
  txout : TxOut
  keychain : KeychainKind
  is_spent : Bool
  status : ChainStatus
deriving DecidableEq

/-- The four balance buckets (Balance in the source types). -/
structure Balance where
  immature : Amount
  trusted_pending : Amount
  untrusted_pending : Amount
  confirmed : Amount
deriving DecidableEq

/-- Transaction id in parsed form; wallet.rs carries txids as hexadecimal
strings and parses them with Txid::from_str. -/
structure Txid where
  hex : String
deriving DecidableEq

/-- Modelled from the spec: a wallet-known transaction with the attributes
the fee-bump path reads (bdk_wallet's tx graph entry, absent from src/):
its fee, weight, whether its inputs are marked replaceable, and its
inputs/outputs. -/
structure WalletTx where
  txid : Txid
  fee : Nat
  weight : Nat
  replaceable : Bool
  inputs : List OutPoint
  outputs : List TxOut
deriving DecidableEq

/-- A canonical transaction as returned by Wallet::get_tx (CanonicalTx in
the source types wraps the transaction plus its chain position). -/
structure CanonicalTx where
  transaction : WalletTx
deriving DecidableEq

/-- Modelled from the spec: one entry of the append-only changeset staged
in the wallet since the last persist. -/
inductive StagedChange where
  | revealed (keychain : KeychainKind) (index : Nat)
  | txAdded (t : Txid)
deriving DecidableEq

/-- The wallet state behind the mutex in wallet.rs: output set, keychain
derivation indices, known transactions, chain view, and the staged
changeset not yet persisted. -/
structure WalletState where
  outputs : List LocalOutput
  ext_index : Nat
  int_index : Nat
  txs : List (Txid × WalletTx)
  tip_height : Nat
  tip_hash : String
  staged : List StagedChange
deriving DecidableEq

/-- Modelled from the spec: the durable append-only changeset store
(rusqlite Connection, absent from src/); io_error models an underlying
storage I/O failure. -/
structure Store where
  rows : List (List StagedChange)
  io_error : Bool
deriving DecidableEq

/-- An unsigned transaction artifact (PSBT): the unsigned transaction plus
its resolved fee. -/
structure Psbt where
  tx : Transaction
  fee : Nat
deriving DecidableEq

/-- Errors of Wallet::calculate_fee / calculate_fee_rate. -/
inductive CalculateFeeError where
  | missingTxOut (out_points : List OutPoint)
  | negativeFee
deriving DecidableEq

/-- Error of Wallet::get_tx on an unparsable txid string. -/
inductive TxidParseError where
  | invalidTxid (txid : String)
deriving DecidableEq

/-- Storage error surfaced by Wallet::persist. -/
inductive SqliteError where
  | sqlite (rusqlite_error : String)
deriving DecidableEq

/-- The CreateTxError variants reachable from the modelled paths of
TxBuilder::finish and BumpFeeTxBuilder::finish. -/
inductive CreateTxError where
  | unknownUtxo (outpoint : String)
  | transactionNotFound (txid : String)
  | feeRateTooLow (required : FeeRate)
  | insufficientFunds (needed : Nat) (available : Nat)
  | noRecipients
deriving DecidableEq

/-- The transaction builder value object of wallet.rs; field-for-field
translation of the Rust struct. -/
structure TxBuilder where
  recipients : List (Script × Amount)
  utxos : List OutPoint
  unspendable : Finset OutPoint
  change_policy : ChangeSpendPolicy
  manually_selected_only : Bool
  fee_rate : Option FeeRate
  fee_absolute : Option Amount
  drain_wallet : Bool
  drain_to : Option Script
  rbf : Option RbfValue
deriving DecidableEq

/-- TxBuilder::new. -/
def TxBuilder.new : TxBuilder where
  recipients := []
  utxos := []
  unspendable := ∅
  change_policy := ChangeSpendPolicy.changeAllowed
  manually_selected_only := false
  fee_rate := none
  fee_absolute := none
  drain_wallet := false
  drain_to := none
  rbf := none

/-- TxBuilder::add_recipient: appends one (script, amount) pair. -/
def TxBuilder.add_recipient (b : TxBuilder) (script : Script) (amount : Amount) : TxBuilder :=
  { b with recipients := b.recipients ++ [(script, amount)] }

/-- TxBuilder::set_recipients: replaces the recipient list. -/
def TxBuilder.set_recipients (b : TxBuilder) (recipients : List ScriptAmount) : TxBuilder :=
  { b with recipients := recipients.map (fun sa => (sa.script, sa.amount)) }

/-- TxBuilder::add_unspendable: inserts one outpoint into the unspendable
set (a HashSet in the source, modelled as a Finset). -/
def TxBuilder.add_unspendable (b : TxBuilder) (o : OutPoint) : TxBuilder :=
  { b with unspendable := insert o b.unspendable }

/-- TxBuilder::unspendable: replaces the unspendable set with the collected
list. -/
def TxBuilder.unspendable' (b : TxBuilder) (os : List OutPoint) : TxBuilder :=
  { b with unspendable := os.toFinset }

/-- TxBuilder::add_utxos: appends the given outpoints to the explicit
inclusion list. -/
def TxBuilder.add_utxos (b : TxBuilder) (outpoints : List OutPoint) : TxBuilder :=
  { b with utxos := b.utxos ++ outpoints }

/-- TxBuilder::add_utxo: delegates to add_utxos with a singleton list. -/
def TxBuilder.add_utxo (b : TxBuilder) (o : OutPoint) : TxBuilder :=
  b.add_utxos [o]

/-- TxBuilder::change_policy. -/
def TxBuilder.change_policy' (b : TxBuilder) (p : ChangeSpendPolicy) : TxBuilder :=
  { b with change_policy := p }

/-- TxBuilder::do_not_spend_change. -/
def TxBuilder.do_not_spend_change (b : TxBuilder) : TxBuilder :=
  { b with change_policy := ChangeSpendPolicy.changeForbidden }

/-- TxBuilder::only_spend_change. -/
def TxBuilder.only_spend_change (b : TxBuilder) : TxBuilder :=
  { b with change_policy := ChangeSpendPolicy.onlyChange }

/-- TxBuilder::manually_selected_only. -/
def TxBuilder.manually_selected_only' (b : TxBuilder) : TxBuilder :=
  { b with manually_selected_only := true }

/-- TxBuilder::fee_rate: sets the fee-rate field; note it does not clear
fee_absolute. -/
def TxBuilder.fee_rate' (b : TxBuilder) (r : FeeRate) : TxBuilder :=
  { b with fee_rate := some r }

/-- TxBuilder::fee_absolute: sets the absolute-fee field; note it does not
clear fee_rate. -/
def TxBuilder.fee_absolute' (b : TxBuilder) (a : Amount) : TxBuilder :=
  { b with fee_absolute := some a }

/-- TxBuilder::drain_wallet. -/
def TxBuilder.drain_wallet' (b : TxBuilder) : TxBuilder :=
  { b with drain_wallet := true }

/-- TxBuilder::drain_to. -/
def TxBuilder.drain_to' (b : TxBuilder) (script : Script) : TxBuilder :=
  { b with drain_to := some script }

/-- TxBuilder::enable_rbf. -/
def TxBuilder.enable_rbf (b : TxBuilder) : TxBuilder :=
  { b with rbf := some RbfValue.Default }

/-- TxBuilder::enable_rbf_with_sequence. -/
def TxBuilder.enable_rbf_with_sequence (b : TxBuilder) (nsequence : Nat) : TxBuilder :=
  { b with rbf := some (RbfValue.Value nsequence) }

/-- One mutator invocation on a TxBuilder, used to quantify over all
builders reachable from TxBuilder::new. -/
inductive TxBuilderOp where
  | add_recipient (script : Script) (amount : Amount)
  | set_recipients (recipients : List ScriptAmount)
  | add_unspendable (o : OutPoint)
  | unspendable_list (os : List OutPoint)
  | add_utxo (o : OutPoint)
  | add_utxos (os : List OutPoint)
  | change_policy_set (p : ChangeSpendPolicy)
  | do_not_spend_change
  | only_spend_change
  | manually_selected_only_set
  | fee_rate_set (r : FeeRate)
  | fee_absolute_set (a : Amount)
  | drain_wallet_set
  | drain_to_set (script : Script)
  | enable_rbf
  | enable_rbf_with_sequence (n : Nat)
deriving DecidableEq

/-- Interpretation of one mutator call. -/
def applyOp (b : TxBuilder) : TxBuilderOp → TxBuilder
  | TxBuilderOp.add_recipient s a => b.add_recipient s a
  | TxBuilderOp.set_recipients rs => b.set_recipients rs
  | TxBuilderOp.add_unspendable o => b.add_unspendable o
  | TxBuilderOp.unspendable_list os => b.unspendable' os
  | TxBuilderOp.add_utxo o => b.add_utxo o
  | TxBuilderOp.add_utxos os => b.add_utxos os
  | TxBuilderOp.change_policy_set p => b.change_policy' p
  | TxBuilderOp.do_not_spend_change => b.do_not_spend_change
  | TxBuilderOp.only_spend_change => b.only_spend_change
  | TxBuilderOp.manually_selected_only_set => b.manually_selected_only'
  | TxBuilderOp.fee_rate_set r => b.fee_rate' r
  | TxBuilderOp.fee_absolute_set a => b.fee_absolute' a
  | TxBuilderOp.drain_wallet_set => b.drain_wallet'
  | TxBuilderOp.drain_to_set s => b.drain_to' s
  | TxBuilderOp.enable_rbf => b.enable_rbf
  | TxBuilderOp.enable_rbf_with_sequence n => b.enable_rbf_with_sequence n

/-- A sequence of mutator calls applied in order. -/
def applyOps (b : TxBuilder) (ops : List TxBuilderOp) : TxBuilder :=
  ops.foldl applyOp b

/-- True exactly on the fee_rate mutator. -/
def TxBuilderOp.setsFeeRate : TxBuilderOp → Bool
  | TxBuilderOp.fee_rate_set _ => true
  | _ => false

/-- True exactly on the fee_absolute mutator. -/
def TxBuilderOp.setsFeeAbsolute : TxBuilderOp → Bool
  | TxBuilderOp.fee_absolute_set _ => true
  | _ => false

/-- One call made on the underlying bdk_wallet tx_builder during finish;
the finish bodies in wallet.rs translate their accumulated fields into a
sequence of these calls. -/
inductive BdkBuilderCall where
  | add_recipient (script : Script) (amount : Amount)
  | change_policy (p : ChangeSpendPolicy)
  | add_utxos (outpoints : List OutPoint)
  | unspendable_set (s : Finset OutPoint)
  | manually_selected_only
  | fee_rate (r : FeeRate)
  | fee_absolute (a : Amount)
  | drain_wallet
  | drain_to (script : Script)
  | enable_rbf
  | enable_rbf_with_sequence (n : Nat)
deriving DecidableEq

/-- The sequence of calls TxBuilder::finish issues on the underlying
bdk tx_builder, in source order: recipients loop, change_policy always,
then each optional field only when set/nonempty. -/
def TxBuilder.finishCalls (b : TxBuilder) : List BdkBuilderCall :=
  (b.recipients.map (fun ra => BdkBuilderCall.add_recipient ra.1 ra.2))
  ++ [BdkBuilderCall.change_policy b.change_policy]
  ++ (if b.utxos.isEmpty then [] else [BdkBuilderCall.add_utxos b.utxos])
  ++ (if b.unspendable = ∅ then [] else [BdkBuilderCall.unspendable_set b.unspendable])
  ++ (if b.manually_selected_only then [BdkBuilderCall.manually_selected_only] else [])
  ++ (match b.fee_rate with
      | some r => [BdkBuilderCall.fee_rate r]
      | none => [])
  ++ (match b.fee_absolute with
      | some a => [BdkBuilderCall.fee_absolute a]
      | none => [])
  ++ (if b.drain_wallet then [BdkBuilderCall.drain_wallet] else [])
  ++ (match b.drain_to with
      | some s => [BdkBuilderCall.drain_to s]
      | none => [])
  ++ (match b.rbf with
      | none => []
      | some RbfValue.Default => [BdkBuilderCall.enable_rbf]
      | some (RbfValue.Value n) => [BdkBuilderCall.enable_rbf_with_sequence n])

/-- True exactly on the two fee-setting builder calls. -/
def isFeeCall : BdkBuilderCall → Bool
  | BdkBuilderCall.fee_rate _ => true
  | BdkBuilderCall.fee_absolute _ => true
  | _ => false

/-- The fee-setting calls of a finish trace; when this is empty the
underlying builder keeps its default relative fee rate. -/
def feeCalls (calls : List BdkBuilderCall) : List BdkBuilderCall :=
  calls.filter isFeeCall

/-- True exactly on the two RBF-setting builder calls. -/
def isRbfCall : BdkBuilderCall → Bool
  | BdkBuilderCall.enable_rbf => true
  | BdkBuilderCall.enable_rbf_with_sequence _ => true
  | _ => false

/-- The RBF-setting calls of a finish trace; when this is empty no RBF
intent is applied to the underlying builder. -/
def rbfCalls (calls : List BdkBuilderCall) : List BdkBuilderCall :=
  calls.filter isRbfCall

/-- The fee-bump builder of wallet.rs: original txid string, target fee
rate, and optional RBF override. -/
structure BumpFeeTxBuilder where
  txid : String
  fee_rate : FeeRate
  rbf : Option RbfValue
deriving DecidableEq

/-- BumpFeeTxBuilder::new: rbf starts out None. -/
def BumpFeeTxBuilder.new (txid : String) (fee_rate : FeeRate) : BumpFeeTxBuilder where
  txid := txid
  fee_rate := fee_rate
  rbf := none

/-- BumpFeeTxBuilder::enable_rbf. -/
def BumpFeeTxBuilder.enable_rbf (b : BumpFeeTxBuilder) : BumpFeeTxBuilder :=
  { b with rbf := some RbfValue.Default }

/-- BumpFeeTxBuilder::enable_rbf_with_sequence. -/
def BumpFeeTxBuilder.enable_rbf_with_sequence (b : BumpFeeTxBuilder) (nsequence : Nat) :
    BumpFeeTxBuilder :=
  { b with rbf := some (RbfValue.Value nsequence) }

/-- The sequence of calls BumpFeeTxBuilder::finish issues on the underlying
bdk fee-bump tx_builder: fee_rate always, then an RBF call only when the
rbf field is set. -/
def BumpFeeTxBuilder.finishCalls (b : BumpFeeTxBuilder) : List BdkBuilderCall :=
  [BdkBuilderCall.fee_rate b.fee_rate]
  ++ (match b.rbf with
      | none => []
      | some RbfValue.Default => [BdkBuilderCall.enable_rbf]
      | some (RbfValue.Value n) => [BdkBuilderCall.enable_rbf_with_sequence n])

/-- True on hexadecimal digit characters. -/
def isHexChar (c : Char) : Bool :=
  c.isDigit || ('a' ≤ c && c ≤ 'f') || ('A' ≤ c && c ≤ 'F')

/-- Modelled from the spec: Txid::from_str from the bitcoin crate (absent
from src/); per the external-interface section, transaction ids are
exchanged as hexadecimal strings — a txid parses exactly when it is a
64-character hexadecimal string. -/
def parseTxid (s : String) : Option Txid :=
  if s.length == 64 && s.toList.all isHexChar then some ⟨s⟩ else none

/-- Look up a wallet-known transaction by txid. -/
def lookupTx (w : WalletState) (t : Txid) : Option WalletTx :=
  (w.txs.find? (fun p => decide (p.1 = t))).map (fun p => p.2)

/-- Adds a value to the bucket matching the output's classification. -/
def bucketAdd (b : Balance) (st : ChainStatus) (v : Amount) : Balance :=
  match st with
  | ChainStatus.confirmed => { b with confirmed := b.confirmed + v }
  | ChainStatus.trustedPending => { b with trusted_pending := b.trusted_pending + v }
  | ChainStatus.untrustedPending => { b with untrusted_pending := b.untrusted_pending + v }
  | ChainStatus.immature => { b with immature := b.immature + v }

/-- Modelled from the spec: bdk_wallet's balance computation (absent from
src/) — partitions the unspent outputs into the four buckets by their
classification, summing values; spent outputs contribute nowhere. -/
def balanceOf : List LocalOutput → Balance
  | [] => ⟨0, 0, 0, 0⟩
  | o :: rest =>
      if o.is_spent then balanceOf rest
      else bucketAdd (balanceOf rest) o.status o.txout.value

/-- Wallet::balance: delegates to the balance computation over the output
set. -/
def Wallet.balance (w : WalletState) : Balance :=
  balanceOf w.outputs

/-- Wallet::list_unspent: the unspent outputs of the wallet. -/
def Wallet.list_unspent (w : WalletState) : List LocalOutput :=
  w.outputs.filter (fun o => !o.is_spent)

/-- Wallet::get_tx: parses the txid string, failing with InvalidTxid
carrying the input string; on success looks the transaction up in the
wallet (a pure read — the state component is returned unchanged). -/
def Wallet.get_tx (w : WalletState) (txid : String) :
    Except TxidParseError (Option CanonicalTx) × WalletState :=
  match parseTxid txid with
  | none => (Except.error (TxidParseError.invalidTxid txid), w)
  | some t => (Except.ok ((lookupTx w t).map CanonicalTx.mk), w)

/-- Value of the wallet output at the given outpoint, when known. -/
def lookupTxOutValue (w : WalletState) (op : OutPoint) : Option Amount :=
  (w.outputs.find? (fun o => decide (o.outpoint = op))).map (fun o => o.txout.value)

/-- The referenced inputs of a transaction that are unknown to the
wallet's output set. -/
def missingInputs (w : WalletState) (tx : Transaction) : List OutPoint :=
  (tx.inputs.filter (fun i => (lookupTxOutValue w i.previous_output).isNone)).map
    (fun i => i.previous_output)

/-- Sum of the wallet-known values of a transaction's inputs (unknown
inputs count 0; callers guard with missingInputs). -/
def inputSum (w : WalletState) (tx : Transaction) : Nat :=
  (tx.inputs.map (fun i => (lookupTxOutValue w i.previous_output).getD 0)).sum

/-- Sum of a transaction's output values. -/
def outputSum (tx : Transaction) : Nat :=
  (tx.outputs.map (fun o => o.value)).sum

/-- Modelled from the spec: bdk_wallet's calculate_fee (absent from src/)
— sums input values looked up from the output set, failing with
MissingTxOut listing any unknown referenced inputs, minus output values,
failing with NegativeFee if inputs are worth less than outputs. -/
def Wallet.calculate_fee (w : WalletState) (tx : Transaction) :
    Except CalculateFeeError Nat :=
  if (missingInputs w tx).isEmpty then
    if inputSum w tx < outputSum tx then Except.error CalculateFeeError.negativeFee
    else Except.ok (inputSum w tx - outputSum tx)
  else Except.error (CalculateFeeError.missingTxOut (missingInputs w tx))

/-- Modelled from the spec: bdk_wallet's calculate_fee_rate (absent from
src/) — the fee divided by the transaction weight. -/
def Wallet.calculate_fee_rate (w : WalletState) (tx : Transaction) :
    Except CalculateFeeError Nat :=
  (Wallet.calculate_fee w tx).map (fun fee => fee / tx.weight)

/-- Modelled from the spec: PersistedWallet::persist (absent from src/) —
flushes the staged changeset as one append-only row and returns whether
anything was written; a store I/O failure surfaces as a storage error, as
mapped in Wallet::persist of wallet.rs. -/
def Wallet.persist (w : WalletState) (conn : Store) :
    Except SqliteError Bool × WalletState × Store :=
  if conn.io_error then
    (Except.error (SqliteError.sqlite "database io error"), w, conn)
  else if w.staged.isEmpty then
    (Except.ok false, w, conn)
  else
    (Except.ok true, { w with staged := [] },
      { conn with rows := conn.rows ++ [w.staged] })

/-- Modelled from the spec: the wallet-wide default relative fee rate used
when the FeeSpec is unset (satoshis per weight unit). -/
def defaultFeeRate : Nat := 1

/-- Modelled from the spec: the dust threshold below which change is folded
into the fee instead of creating an uneconomical output. -/
def dustLimit : Nat := 546

/-- Modelled from the spec: transaction weight estimation — weight depends
on input/output counts (an external estimation concern; the constants here
stand in for the per-input and per-output script costs). -/
def weightEstimate (nIn nOut : Nat) : Nat :=
  40 + 68 * nIn + 31 * nOut

/-- Total value of a list of selected outputs. -/
def totalValue (sel : List LocalOutput) : Nat :=
  (sel.map (fun o => o.txout.value)).sum

/-- Eligibility of an output for automatic coin selection: unspent, not in
the explicit exclusion set, and matching the change-spend policy (change
forbidden excludes internal-keychain outputs, change-only excludes
external-keychain outputs). -/
def eligibleForAuto (b : TxBuilder) (o : LocalOutput) : Bool :=
  !o.is_spent && !(decide (o.outpoint ∈ b.unspendable)) &&
    (match b.change_policy with
     | ChangeSpendPolicy.changeAllowed => true
     | ChangeSpendPolicy.changeForbidden => decide (o.keychain = KeychainKind.external)
     | ChangeSpendPolicy.onlyChange => decide (o.keychain = KeychainKind.internal))

/-- Fee resolution: absolute fee when given, else (requested or default)
rate times the estimated weight for the given input/output counts. -/
def feeFor (b : TxBuilder) (nIn nOut : Nat) : Nat :=
  match b.fee_absolute with
  | some a => a
  | none => (b.fee_rate.getD defaultFeeRate) * weightEstimate nIn nOut

/-- Modelled from the spec: greedy automatic coin selection — starting
from the explicit inclusions, keep adding eligible outputs until the
accumulated value covers recipients plus the (input-count dependent)
fee. -/
def pickCoins (b : TxBuilder) (target : Nat) (nOut : Nat) :
    List LocalOutput → List LocalOutput → List LocalOutput
  | [], acc => acc
  | o :: rest, acc =>
      if target + feeFor b acc.length nOut ≤ totalValue acc then acc
      else pickCoins b target nOut rest (acc ++ [o])

/-- Display form of an outpoint, as carried in UnknownUtxo errors. -/
def OutPoint.display (op : OutPoint) : String :=
  op.txid ++ ":" ++ toString op.vout

/-- Resolve an explicitly included outpoint against the wallet's output
set. -/
def resolveUtxo (w : WalletState) (op : OutPoint) : Option LocalOutput :=
  w.outputs.find? (fun o => decide (o.outpoint = op))

/-- Modelled from the spec: the change script is derived from the internal
keychain's next index; per the spec, TxBuilder::finish does not mutate the
wallet state, so the index is read, not incremented. -/
def changeScript (w : WalletState) : Script :=
  ⟨[w.int_index]⟩

/-- Modelled from the spec: bdk_wallet's create_tx behind
TxBuilder::finish (absent from src/) — recipients become outputs, inputs
are the explicit inclusions topped up by automatic selection under the
change policy and exclusion set, the fee comes from the FeeSpec (default
relative rate when unset), spare value goes to the drain script or to a
change output unless below dust (then folded into the fee).  A pure
function of the wallet state: selection is read-only. -/
def createTx (w : WalletState) (b : TxBuilder) : Except CreateTxError Psbt :=
  if b.recipients.isEmpty && !b.drain_wallet && b.drain_to.isNone then
    Except.error CreateTxError.noRecipients
  else
    match b.utxos.mapM (resolveUtxo w) with
    | none =>
        Except.error (CreateTxError.unknownUtxo
          (((b.utxos.filter (fun op => (resolveUtxo w op).isNone)).headD ⟨"", 0⟩).display))
    | some manual =>
        let pool := (w.outputs.filter (eligibleForAuto b)).filter
          (fun o => !(decide (o.outpoint ∈ b.utxos)))
        let recTotal := (b.recipients.map (fun r => r.2)).sum
        let nOut := b.recipients.length + 1
        let selected :=
          if b.drain_wallet then manual ++ pool
          else if b.manually_selected_only then manual
          else pickCoins b recTotal nOut pool manual
        let fee := feeFor b selected.length nOut
        let total := totalValue selected
        if total < recTotal + fee then
          Except.error (CreateTxError.insufficientFunds (recTotal + fee) total)
        else
          let spare := total - recTotal - fee
          let recOuts := b.recipients.map (fun r => TxOut.mk r.2 r.1)
          let drainScript :=
            match b.drain_to with
            | some s => some s
            | none => if b.drain_wallet then some (changeScript w) else none
          let outs :=
            match drainScript with
            | some s => recOuts ++ [TxOut.mk spare s]
            | none =>
                if spare < dustLimit then recOuts
                else recOuts ++ [TxOut.mk spare (changeScript w)]
          let dustFolded :=
            match drainScript with
            | some _ => 0
            | none => if spare < dustLimit then spare else 0
          Except.ok
            { tx :=
                { inputs := selected.map (fun o => TxIn.mk o.outpoint)
                  outputs := outs
                  weight := weightEstimate selected.length outs.length }
              fee := fee + dustFolded }

/-- Outcome of TxBuilder::finish against a wallet: the result and the
wallet state after the call. -/
structure FinishOutcome where
  result : Except CreateTxError Psbt
  wallet : WalletState

/-- TxBuilder::finish: takes the wallet lock, replays the accumulated
fields onto the underlying builder and finishes; selection is read-only,
so the wallet state passes through unchanged. -/
def TxBuilder.finishW (b : TxBuilder) (w : WalletState) : FinishOutcome :=
  { result := createTx w b, wallet := w }

/-- The rate threshold of the minimum replacement-increment rule: a target
rate strictly above originalFee / originalWeight makes the replacement's
fee strictly greater than the original's. -/
def requiredBumpRate (orig : WalletTx) : Nat :=
  orig.fee / orig.weight

/-- Modelled from the spec: bdk_wallet's build_fee_bump plus finish
(absent from src/) — fails when the original lacks replaceable inputs;
the replacement reuses the original's inputs and outputs as a base, its
fee is the target rate times the weight, and a target fee not strictly
greater than the original's fee fails with FeeRateTooLow carrying the
minimal acceptable rate. -/
def bumpFinishCore (orig : WalletTx) (rate : FeeRate) : Except CreateTxError Psbt :=
  if !orig.replaceable then
    Except.error (CreateTxError.unknownUtxo orig.txid.hex)
  else
    let newFee := rate * orig.weight
    if orig.fee < newFee then
      Except.ok
        { tx :=
            { inputs := orig.inputs.map TxIn.mk
              outputs := orig.outputs
              weight := orig.weight }
          fee := newFee }
    else
      Except.error (CreateTxError.feeRateTooLow (requiredBumpRate orig + 1))

/-- Outcome of BumpFeeTxBuilder::finish: result, whether the wallet lock
was taken, and the wallet state after the call. -/
structure BumpFinishOutcome where
  result : Except CreateTxError Psbt
  lock_taken : Bool
  wallet : WalletState

/-- BumpFeeTxBuilder::finish: first parses the txid string, failing with
UnknownUtxo carrying the supplied string before the wallet lock is taken;
then, under the lock, resolves the original transaction and runs the
fee-bump; the wallet state passes through unchanged. -/
def BumpFeeTxBuilder.finishW (b : BumpFeeTxBuilder) (w : WalletState) : BumpFinishOutcome :=
  match parseTxid b.txid with
  | none =>
      { result := Except.error (CreateTxError.unknownUtxo b.txid)
        lock_taken := false
        wallet := w }
  | some t =>
      match lookupTx w t with
      | none =>
          { result := Except.error (CreateTxError.transactionNotFound b.txid)
            lock_taken := true
            wallet := w }
      | some orig =>
          { result := bumpFinishCore orig b.fee_rate
            lock_taken := true
            wallet := w }

/-! Concrete example values used by the witnesses below. -/

/-- Example recipient script. -/
def exScript : Script := ⟨[7]⟩

/-- Example wallet-known unspent output worth 100000 satoshis. -/
def exOut0 : LocalOutput :=
  { outpoint := ⟨"aa", 0⟩
    txout := ⟨100000, ⟨[3]⟩⟩
    keychain := KeychainKind.external
    is_spent := false
    status := ChainStatus.confirmed }

/-- Example wallet state with one unspent output and no known
transactions. -/
def exWallet : WalletState :=
  { outputs := [exOut0]
    ext_index := 0
    int_index := 0
    txs := []
    tip_height := 0
    tip_hash := ""
    staged := [] }

/-- A syntactically valid 64-character hexadecimal txid string. -/
def txidZeros : String :=
  "0000000000000000000000000000000000000000000000000000000000000000"

/-- Example parsed txid. -/
def exTxid : Txid := ⟨txidZeros⟩

/-- Example original transaction for the fee-bump witnesses: fee 100,
weight 10, replaceable. -/
def exOrig : WalletTx :=
  { txid := exTxid
    fee := 100
    weight := 10
    replaceable := true
    inputs := []
    outputs := [] }

/-- Example wallet state that knows the original transaction. -/
def exWalletB : WalletState :=
  { exWallet with txs := [(exTxid, exOrig)] }

/-- Example wallet state with a nonempty staged changeset. -/
def exStagedWallet : WalletState :=
  { exWallet with staged := [StagedChange.revealed KeychainKind.external 0] }

/-- Example healthy store. -/
def exStore : Store := { rows := [], io_error := false }

/-- Example transaction spending the known output. -/
def exTx1 : Transaction :=
  { inputs := [⟨⟨"aa", 0⟩⟩], outputs := [⟨400, exScript⟩], weight := 100 }

/-- Example transaction with an input unknown to the wallet. -/
def exTx2 : Transaction :=
  { inputs := [⟨⟨"bb", 1⟩⟩], outputs := [], weight := 1 }

/-! Claim theorems. -/

/-- Helper for C1: the bucket sums of the balance computation add up to
the values of the unspent outputs of the list. -/
lemma balanceOf_total (l : List LocalOutput) :
    (balanceOf l).confirmed + (balanceOf l).trusted_pending +
      (balanceOf l).untrusted_pending + (balanceOf l).immature
      = ((l.filter (fun o => !o.is_spent)).map (fun o => o.txout.value)).sum := by
  induction l with
  | nil => rfl
  | cons o rest ih =>
    by_cases h : o.is_spent
    · simp [balanceOf, h, ih]
    · cases hst : o.status <;>
        simp [balanceOf, h, hst, bucketAdd] <;> rw [← ih] <;> ring

/-- C1: the four buckets of Wallet::balance sum exactly to the total value
of the wallet's unspent outputs (the outputs returned by
Wallet::list_unspent). -/
theorem balance_buckets_sum_eq_unspent_total (w : WalletState) :
    (Wallet.balance w).confirmed + (Wallet.balance w).trusted_pending +
      (Wallet.balance w).untrusted_pending + (Wallet.balance w).immature
      = ((Wallet.list_unspent w).map (fun o => o.txout.value)).sum := by
  unfold Wallet.balance Wallet.list_unspent
  exact balanceOf_total w.outputs

/-- C5: every TxBuilder mutator returns a new builder value in which only
the targeted field differs from the receiver (each right-hand side is the
receiver with just that one field replaced); in this functional embedding
the receiver itself is immutable, so no in-place mutation is
observable. -/
theorem tx_builder_mutators_frame (b : TxBuilder) (s : Script) (a : Amount)
    (rs : List ScriptAmount) (o : OutPoint) (os : List OutPoint)
    (p : ChangeSpendPolicy) (r : FeeRate) (n : Nat) :
    b.add_recipient s a = { b with recipients := (b.add_recipient s a).recipients } ∧
    b.set_recipients rs = { b with recipients := (b.set_recipients rs).recipients } ∧
    b.add_utxo o = { b with utxos := (b.add_utxo o).utxos } ∧
    b.add_utxos os = { b with utxos := (b.add_utxos os).utxos } ∧
    b.add_unspendable o = { b with unspendable := (b.add_unspendable o).unspendable } ∧
    b.unspendable' os = { b with unspendable := (b.unspendable' os).unspendable } ∧
    b.change_policy' p = { b with change_policy := (b.change_policy' p).change_policy } ∧
    b.do_not_spend_change = { b with change_policy := b.do_not_spend_change.change_policy } ∧
    b.only_spend_change = { b with change_policy := b.only_spend_change.change_policy } ∧
    b.manually_selected_only'
      = { b with manually_selected_only := b.manually_selected_only'.manually_selected_only } ∧
    b.fee_rate' r = { b with fee_rate := (b.fee_rate' r).fee_rate } ∧
    b.fee_absolute' a = { b with fee_absolute := (b.fee_absolute' a).fee_absolute } ∧
    b.drain_wallet' = { b with drain_wallet := b.drain_wallet'.drain_wallet } ∧
    b.drain_to' s = { b with drain_to := (b.drain_to' s).drain_to } ∧
    b.enable_rbf = { b with rbf := b.enable_rbf.rbf } ∧
    b.enable_rbf_with_sequence n = { b with rbf := (b.enable_rbf_with_sequence n).rbf } :=
  ⟨rfl, rfl, rfl, rfl, rfl, rfl, rfl, rfl, rfl, rfl, rfl, rfl, rfl, rfl, rfl, rfl⟩

/-- Helper for C2: the fee_rate field of a builder reached by a mutator
sequence is set exactly when the start builder had it set or the sequence
contains a fee_rate call (no mutator ever clears it). -/
lemma applyOps_fee_rate (ops : List TxBuilderOp) (b : TxBuilder) :
    (applyOps b ops).fee_rate.isSome
      = (b.fee_rate.isSome || ops.any TxBuilderOp.setsFeeRate) := by
  induction ops generalizing b with
  | nil => simp [applyOps]
  | cons op rest ih =>
    have h : applyOps b (op :: rest) = applyOps (applyOp b op) rest := rfl
    rw [h, ih]
    cases op <;>
      simp [applyOp, TxBuilder.add_recipient, TxBuilder.set_recipients,
        TxBuilder.add_unspendable, TxBuilder.unspendable', TxBuilder.add_utxo,
        TxBuilder.add_utxos, TxBuilder.change_policy', TxBuilder.do_not_spend_change,
        TxBuilder.only_spend_change, TxBuilder.manually_selected_only',
        TxBuilder.fee_rate', TxBuilder.fee_absolute', TxBuilder.drain_wallet',
        TxBuilder.drain_to', TxBuilder.enable_rbf, TxBuilder.enable_rbf_with_sequence,
        TxBuilderOp.setsFeeRate, Bool.or_comm, Bool.or_left_comm]

/-- Helper for C2: same tracking property for the fee_absolute field. -/
lemma applyOps_fee_absolute (ops : List TxBuilderOp) (b : TxBuilder) :
    (applyOps b ops).fee_absolute.isSome
      = (b.fee_absolute.isSome || ops.any TxBuilderOp.setsFeeAbsolute) := by
  induction ops generalizing b with
  | nil => simp [applyOps]
  | cons op rest ih =>
    have h : applyOps b (op :: rest) = applyOps (applyOp b op) rest := rfl
    rw [h, ih]
    cases op <;>
      simp [applyOp, TxBuilder.add_recipient, TxBuilder.set_recipients,
        TxBuilder.add_unspendable, TxBuilder.unspendable', TxBuilder.add_utxo,
        TxBuilder.add_utxos, TxBuilder.change_policy', TxBuilder.do_not_spend_change,
        TxBuilder.only_spend_change, TxBuilder.manually_selected_only',
        TxBuilder.fee_rate', TxBuilder.fee_absolute', TxBuilder.drain_wallet',
        TxBuilder.drain_to', TxBuilder.enable_rbf, TxBuilder.enable_rbf_with_sequence,
        TxBuilderOp.setsFeeAbsolute, Bool.or_comm, Bool.or_left_comm]

/-- Helper for C2: recipient calls are never fee calls. -/
lemma filter_feeCall_recipients (rs : List (Script × Amount)) :
    List.filter isFeeCall (rs.map (fun ra => BdkBuilderCall.add_recipient ra.1 ra.2)) = [] := by
  induction rs with
  | nil => rfl
  | cons r rest ih => simpa [isFeeCall] using ih

/-- Helper for C2: when neither fee field is set, the finish trace contains
no fee call, so the underlying builder's default relative rate applies. -/
lemma feeCalls_finishCalls_none (b : TxBuilder)
    (hr : b.fee_rate = none) (ha : b.fee_absolute = none) :
    feeCalls (TxBuilder.finishCalls b) = [] := by
  unfold feeCalls TxBuilder.finishCalls
  rw [hr, ha]
  rcases hdt : b.drain_to with _ | s <;>
    rcases hrb : b.rbf with _ | v <;>
    (try cases v) <;>
    simp [List.filter_append, filter_feeCall_recipients, isFeeCall,
      apply_ite (List.filter isFeeCall)]

/-- C2 (counterexample): the builder reached from TxBuilder::new by
calling fee_rate then fee_absolute has both a fee rate and an absolute fee
set, refuting the exactly-one-of invariant. -/
theorem fee_rate_and_absolute_both_set :
    ((applyOps TxBuilder.new
        [TxBuilderOp.fee_rate_set 1, TxBuilderOp.fee_absolute_set 100]).fee_rate
      = some 1) ∧
    ((applyOps TxBuilder.new
        [TxBuilderOp.fee_rate_set 1, TxBuilderOp.fee_absolute_set 100]).fee_absolute
      = some 100) :=
  ⟨rfl, rfl⟩

/-- C2 (amended): on every builder reachable from TxBuilder::new, the fee
rate is set exactly when a fee_rate mutator was called and the absolute
fee exactly when a fee_absolute mutator was called — both may be set on
the same builder; when neither is set, finish issues no fee call on the
underlying builder, so the default relative rate is used. -/
theorem fee_spec_tracks_mutators (ops : List TxBuilderOp) :
    ((applyOps TxBuilder.new ops).fee_rate.isSome = ops.any TxBuilderOp.setsFeeRate) ∧
    ((applyOps TxBuilder.new ops).fee_absolute.isSome = ops.any TxBuilderOp.setsFeeAbsolute) ∧
    (ops.any TxBuilderOp.setsFeeRate = false → ops.any TxBuilderOp.setsFeeAbsolute = false →
      feeCalls (TxBuilder.finishCalls (applyOps TxBuilder.new ops)) = []) := by
  refine ⟨?_, ?_, ?_⟩
  · simpa [TxBuilder.new] using applyOps_fee_rate ops TxBuilder.new
  · simpa [TxBuilder.new] using applyOps_fee_absolute ops TxBuilder.new
  · intro h1 h2
    apply feeCalls_finishCalls_none
    · have hr := applyOps_fee_rate ops TxBuilder.new
      rw [h1] at hr
      simp [TxBuilder.new] at hr
      exact hr
    · have ha := applyOps_fee_absolute ops TxBuilder.new
      rw [h2] at ha
      simp [TxBuilder.new] at ha
      exact ha

/-- C2 (witness for the amended theorem): with no mutator calls neither
fee field is set and the finish trace has no fee call. -/
theorem fee_spec_tracks_mutators_witness :
    feeCalls (TxBuilder.finishCalls (applyOps TxBuilder.new [])) = [] :=
  (fee_spec_tracks_mutators []).2.2 rfl rfl

/-- C3: TxBuilder::finish leaves every field of the wallet state unchanged
(outputs, keychain derivation indices, known transactions, chain view) and
its result is exactly the unsigned-transaction artifact of the read-only
create-tx computation. -/
theorem tx_builder_finish_frame (b : TxBuilder) (w : WalletState) :
    (TxBuilder.finishW b w).wallet.outputs = w.outputs ∧
    (TxBuilder.finishW b w).wallet.ext_index = w.ext_index ∧
    (TxBuilder.finishW b w).wallet.int_index = w.int_index ∧
    (TxBuilder.finishW b w).wallet.txs = w.txs ∧
    (TxBuilder.finishW b w).wallet.tip_height = w.tip_height ∧
    (TxBuilder.finishW b w).wallet.tip_hash = w.tip_hash ∧
    (TxBuilder.finishW b w).wallet = w ∧
    (TxBuilder.finishW b w).result = createTx w b :=
  ⟨rfl, rfl, rfl, rfl, rfl, rfl, rfl, rfl⟩

/-- C4 (counterexample): a BumpFeeTxBuilder fresh from new (rbf never
invoked) has rbf = none and its finish issues no RBF call at all — the
default-sequence RBF intent is not applied. -/
theorem bump_fee_default_rbf_refuted :
    (BumpFeeTxBuilder.new "aa" 7).rbf = none ∧
    rbfCalls (BumpFeeTxBuilder.finishCalls (BumpFeeTxBuilder.new "aa" 7)) = [] ∧
    BdkBuilderCall.enable_rbf ∉ BumpFeeTxBuilder.finishCalls (BumpFeeTxBuilder.new "aa" 7) := by
  refine ⟨rfl, rfl, ?_⟩
  simp [BumpFeeTxBuilder.finishCalls, BumpFeeTxBuilder.new]

/-- C4 (amended): the RBF intent of a BumpFeeTxBuilder defaults to absent
— when the caller never invoked enable_rbf or enable_rbf_with_sequence,
finish applies no RBF call to the replacement; enable_rbf makes finish
apply the default-sequence call and enable_rbf_with_sequence the explicit
sequence call. -/
theorem bump_fee_rbf_absent_by_default (t : String) (r : FeeRate) (n : Nat)
    (b : BumpFeeTxBuilder) :
    (BumpFeeTxBuilder.new t r).rbf = none ∧
    rbfCalls (BumpFeeTxBuilder.finishCalls (BumpFeeTxBuilder.new t r)) = [] ∧
    rbfCalls (BumpFeeTxBuilder.finishCalls b.enable_rbf) = [BdkBuilderCall.enable_rbf] ∧
    rbfCalls (BumpFeeTxBuilder.finishCalls (b.enable_rbf_with_sequence n))
      = [BdkBuilderCall.enable_rbf_with_sequence n] := by
  refine ⟨rfl, rfl, ?_, ?_⟩ <;>
    simp [BumpFeeTxBuilder.finishCalls, BumpFeeTxBuilder.enable_rbf,
      BumpFeeTxBuilder.enable_rbf_with_sequence, rbfCalls, isRbfCall]

/-- Helper for C6: a transaction has no missing inputs exactly when every
referenced input is known to the wallet's output set. -/
lemma missingInputs_eq_nil_iff (w : WalletState) (tx : Transaction) :
    missingInputs w tx = []
      ↔ ∀ i ∈ tx.inputs, (lookupTxOutValue w i.previous_output).isSome := by
  unfold missingInputs
  constructor
  · intro h i hi
    by_contra hn
    have hmem : i ∈ tx.inputs.filter
        (fun i => (lookupTxOutValue w i.previous_output).isNone) := by
      refine List.mem_filter.mpr ⟨hi, ?_⟩
      cases hx : lookupTxOutValue w i.previous_output with
      | none => rfl
      | some v => rw [hx] at hn; simp at hn
    rw [List.map_eq_nil_iff] at h
    rw [h] at hmem
    cases hmem
  · intro h
    rw [List.map_eq_nil_iff]
    refine List.filter_eq_nil_iff.mpr ?_
    intro i hi
    have := h i hi
    cases hx : lookupTxOutValue w i.previous_output with
    | none => rw [hx] at this; simp at this
    | some v => simp [hx]

/-- C6: Wallet::calculate_fee returns (sum of known input values) minus
(sum of output values); it fails with MissingTxOut listing the unknown
referenced inputs when any input is unknown, with NegativeFee when the
inputs are worth less than the outputs, and calculate_fee_rate divides the
fee by the transaction weight. -/
theorem calculate_fee_spec (w : WalletState) (tx : Transaction) :
    ((∀ i ∈ tx.inputs, (lookupTxOutValue w i.previous_output).isSome) →
      ((outputSum tx ≤ inputSum w tx →
          Wallet.calculate_fee w tx = Except.ok (inputSum w tx - outputSum tx) ∧
          Wallet.calculate_fee_rate w tx
            = Except.ok ((inputSum w tx - outputSum tx) / tx.weight)) ∧
        (inputSum w tx < outputSum tx →
          Wallet.calculate_fee w tx = Except.error CalculateFeeError.negativeFee))) ∧
    (missingInputs w tx ≠ [] →
      Wallet.calculate_fee w tx
        = Except.error (CalculateFeeError.missingTxOut (missingInputs w tx))) := by
  constructor
  · intro hall
    have hnil : missingInputs w tx = [] := (missingInputs_eq_nil_iff w tx).mpr hall
    constructor
    · intro hle
      have hnlt : ¬ inputSum w tx < outputSum tx := not_lt.mpr hle
      constructor
      · simp [Wallet.calculate_fee, hnil, hnlt]
      · simp [Wallet.calculate_fee_rate, Wallet.calculate_fee, hnil, hnlt, Except.map]
    · intro hlt
      simp [Wallet.calculate_fee, hnil, hlt]
  · intro hne
    have hne' : (missingInputs w tx).isEmpty = false := by
      cases hm : missingInputs w tx with
      | nil => exact absurd hm hne
      | cons a l => rfl
    simp [Wallet.calculate_fee, hne']

/-- C6 (witness): on the example wallet, a fully known transaction yields
fee 99600 and rate 996; a transaction with an unknown input fails with
MissingTxOut. -/
theorem calculate_fee_spec_witness :
    Wallet.calculate_fee exWallet exTx1 = Except.ok 99600 ∧
    Wallet.calculate_fee_rate exWallet exTx1 = Except.ok 996 ∧
    Wallet.calculate_fee exWallet exTx2
      = Except.error (CalculateFeeError.missingTxOut (missingInputs exWallet exTx2)) := by
  have h1 := ((calculate_fee_spec exWallet exTx1).1 (by decide)).1 (by decide)
  refine ⟨h1.1.trans (by rfl), h1.2.trans (by rfl), ?_⟩
  exact (calculate_fee_spec exWallet exTx2).2 (by decide)

/-- C7: for an original transaction known to the wallet with replaceable
inputs, a target rate strictly above the increment threshold makes
BumpFeeTxBuilder::finish succeed with a replacement fee strictly greater
than the original's, while a target rate below it fails with
FeeRateTooLow. -/
theorem bump_fee_increment_rule (b : BumpFeeTxBuilder) (w : WalletState)
    (t : Txid) (orig : WalletTx)
    (hparse : parseTxid b.txid = some t) (hlook : lookupTx w t = some orig)
    (hrep : orig.replaceable = true) (hw : 0 < orig.weight) :
    (requiredBumpRate orig < b.fee_rate →
      ∃ p, (BumpFeeTxBuilder.finishW b w).result = Except.ok p ∧ orig.fee < p.fee) ∧
    (b.fee_rate ≤ requiredBumpRate orig →
      (BumpFeeTxBuilder.finishW b w).result
        = Except.error (CreateTxError.feeRateTooLow (requiredBumpRate orig + 1))) := by
  have hres : (BumpFeeTxBuilder.finishW b w).result = bumpFinishCore orig b.fee_rate := by
    simp [BumpFeeTxBuilder.finishW, hparse, hlook]
  constructor
  · intro hr
    have hfee : orig.fee < b.fee_rate * orig.weight :=
      (Nat.div_lt_iff_lt_mul hw).mp hr
    rw [hres]
    unfold bumpFinishCore
    rw [hrep]
    simp only [Bool.not_true, Bool.false_eq_true, if_false, if_pos hfee]
    exact ⟨_, rfl, hfee⟩
  · intro hr
    have hle : b.fee_rate * orig.weight ≤ orig.fee :=
      le_trans (Nat.mul_le_mul_right _ hr) (Nat.div_mul_le_self _ _)
    rw [hres]
    unfold bumpFinishCore
    rw [hrep]
    simp only [Bool.not_true, Bool.false_eq_true, if_false, if_neg (not_lt.mpr hle)]

/-- C7 (witness): bumping the example original (fee 100, weight 10) at
rate 11 succeeds with a larger fee; at rate 10 it fails with
FeeRateTooLow. -/
theorem bump_fee_increment_rule_witness :
    (∃ p, (BumpFeeTxBuilder.finishW (BumpFeeTxBuilder.new txidZeros 11) exWalletB).result
        = Except.ok p ∧ exOrig.fee < p.fee) ∧
    (BumpFeeTxBuilder.finishW (BumpFeeTxBuilder.new txidZeros 10) exWalletB).result
      = Except.error (CreateTxError.feeRateTooLow (requiredBumpRate exOrig + 1)) :=
  ⟨(bump_fee_increment_rule (BumpFeeTxBuilder.new txidZeros 11) exWalletB exTxid exOrig
      (by decide) (by decide) (by decide) (by decide)).1 (by decide),
   (bump_fee_increment_rule (BumpFeeTxBuilder.new txidZeros 10) exWalletB exTxid exOrig
      (by decide) (by decide) (by decide) (by decide)).2 (by decide)⟩

/-- C8: Wallet::persist is idempotent under retry — on a healthy store the
first call returns whether anything was staged, and a second call with no
intervening mutation writes nothing and returns false. -/
theorem persist_idempotent (w : WalletState) (s : Store) (h : s.io_error = false) :
    ∃ w1 s1, Wallet.persist w s = (Except.ok (!w.staged.isEmpty), w1, s1) ∧
      Wallet.persist w1 s1 = (Except.ok false, w1, s1) := by
  by_cases hst : w.staged.isEmpty
  · exact ⟨w, s, by simp [Wallet.persist, h, hst], by simp [Wallet.persist, h, hst]⟩
  · refine ⟨{ w with staged := [] }, { s with rows := s.rows ++ [w.staged] }, ?_, ?_⟩
    · simp [Wallet.persist, h, hst]
    · simp [Wallet.persist, h]

/-- C8 (witness): persisting the example wallet with one staged change
writes it and returns true; the immediate retry writes nothing and
returns false. -/
theorem persist_idempotent_witness :
    ∃ w1 s1, Wallet.persist exStagedWallet exStore = (Except.ok true, w1, s1) ∧
      Wallet.persist w1 s1 = (Except.ok false, w1, s1) := by
  obtain ⟨w1, s1, h1, h2⟩ := persist_idempotent exStagedWallet exStore rfl
  exact ⟨w1, s1, h1, h2⟩

/-- C9: on a txid string that does not parse, BumpFeeTxBuilder::finish
fails with UnknownUtxo carrying exactly the supplied string, before the
wallet lock is taken, and the wallet state is unchanged. -/
theorem bump_finish_invalid_txid (b : BumpFeeTxBuilder) (w : WalletState)
    (h : parseTxid b.txid = none) :
    (BumpFeeTxBuilder.finishW b w).result
      = Except.error (CreateTxError.unknownUtxo b.txid) ∧
    (BumpFeeTxBuilder.finishW b w).lock_taken = false ∧
    (BumpFeeTxBuilder.finishW b w).wallet = w := by
  unfold BumpFeeTxBuilder.finishW
  rw [h]
  exact ⟨rfl, rfl, rfl⟩

/-- C9 (witness): finishing a bump builder over an unparsable txid string
fails with UnknownUtxo carrying that string, without taking the lock or
touching the wallet. -/
theorem bump_finish_invalid_txid_witness :
    (BumpFeeTxBuilder.finishW (BumpFeeTxBuilder.new "not-a-txid" 2) exWallet).result
      = Except.error (CreateTxError.unknownUtxo "not-a-txid") ∧
    (BumpFeeTxBuilder.finishW (BumpFeeTxBuilder.new "not-a-txid" 2) exWallet).lock_taken
      = false ∧
    (BumpFeeTxBuilder.finishW (BumpFeeTxBuilder.new "not-a-txid" 2) exWallet).wallet
      = exWallet :=
  bump_finish_invalid_txid (BumpFeeTxBuilder.new "not-a-txid" 2) exWallet (by decide)

/-- C10: Wallet::get_tx is total over its string input — an unparsable
string yields InvalidTxid carrying that string, a valid txid unknown to
the wallet yields Ok(None), and the wallet state is never mutated. -/
theorem get_tx_total (w : WalletState) (s : String) :
    (parseTxid s = none →
      (Wallet.get_tx w s).1 = Except.error (TxidParseError.invalidTxid s)) ∧
    (∀ t, parseTxid s = some t → lookupTx w t = none →
      (Wallet.get_tx w s).1 = Except.ok none) ∧
    (Wallet.get_tx w s).2 = w := by
  refine ⟨?_, ?_, ?_⟩
  · intro h
    simp [Wallet.get_tx, h]
  · intro t ht hl
    simp [Wallet.get_tx, ht, hl]
  · cases h : parseTxid s <;> simp [Wallet.get_tx, h]

/-- C10 (witness): on the example wallet, an unparsable string yields
InvalidTxid, a well-formed but unknown txid yields Ok(None), and the
state is unchanged. -/
theorem get_tx_total_witness :
    (Wallet.get_tx exWallet "zz").1
      = Except.error (TxidParseError.invalidTxid "zz") ∧
    (Wallet.get_tx exWallet txidZeros).1 = Except.ok none ∧
    (Wallet.get_tx exWallet txidZeros).2 = exWallet :=
  ⟨(get_tx_total exWallet "zz").1 (by decide),
   (get_tx_total exWallet txidZeros).2.1 ⟨txidZeros⟩ (by decide) (by decide),
   (get_tx_total exWallet txidZeros).2.2⟩

end BdkFfi
